import Mathlib

/-!
Shallow embedding of `source/common/quic/envoy_quic_server_stream.cc`
(`EnvoyQuicServerStream`), the per-stream adapter between a QUIC/HTTP3
transport stream and the application request/response pipeline.

The stream's mutable state is a `StreamState` record; each C++ member
function becomes a Lean function `StreamState → ... → StreamState`.
Observable effects (application reset callbacks, transport resets,
body writes, trailer dispatch, connection-level close) are appended to a
ghost observation log so that ordering and at-most-once properties can be
stated.  Behaviour of the QUICHE base classes and of Envoy helpers that
live outside this translation unit is modelled from the spec, and each
such definition is marked `Modelled from the spec:` in its doc comment.
-/

namespace EnvoyQuicServerStream

/-- Attribution of a reset callback: locally or remotely initiated. -/
inductive Attribution where
  | Local
  | Remote
deriving DecidableEq, Repr

/-- An application-level reset reason: an attribution together with the
underlying transport error code it was derived from. -/
structure ResetReason where
  attr : Attribution
  code : Nat
deriving DecidableEq, Repr

/-- Observable effects emitted by the stream, recorded in order. -/
inductive Obs where
  /-- The application reset callback fired with the given reason. -/
  | resetCallback (r : ResetReason)
  /-- A reset was issued to the transport with the given error code. -/
  | transportReset (code : Nat)
  /-- `WriteBodySlices` was invoked with this many bytes and this fin bit. -/
  | writeBody (len : Nat) (fin : Bool)
  /-- `decodeTrailers` was dispatched to the application decoder. -/
  | decodeTrailersObs
  /-- `onLocalEndStream` ran local end-of-stream completion processing. -/
  | localEndStreamObs
  /-- `stream_delegate()->OnStreamError` closed the whole connection. -/
  | connError (code : Nat) (detail : String)
deriving DecidableEq, Repr

/-- Modelled from the spec: `quic::QuicRstStreamErrorCode` value
`QUIC_STREAM_NO_ERROR` (numeric values are from QUICHE, not in src/). -/
def QUIC_STREAM_NO_ERROR : Nat := 0

/-- Modelled from the spec: the distinct "bad payload" reset code
`QUIC_BAD_APPLICATION_PAYLOAD`. -/
def QUIC_BAD_APPLICATION_PAYLOAD : Nat := 3

/-- Modelled from the spec: the cancellation code `QUIC_STREAM_CANCELLED`. -/
def QUIC_STREAM_CANCELLED : Nat := 6

/-- Modelled from the spec: the connection error code `QUIC_HTTP_FRAME_ERROR`
passed to `stream_delegate()->OnStreamError`. -/
def QUIC_HTTP_FRAME_ERROR : Nat := 258

/-- Modelled from the spec: the diagnostic detail
`Http3ResponseCodeDetailValues::invalid_http_header` (a fixed non-empty
string; its exact text lives outside src/). -/
def invalid_http_header : String := "http3.invalid_header_field"

/-- The state of one `EnvoyQuicServerStream`, as read and written by the
functions of `envoy_quic_server_stream.cc`.  Fields mirror the C++ members
and base-class accessors used by the source: `read_side_closed()`,
`write_side_closed()`, `reading_stopped()`, `local_end_stream_`,
`end_stream_decoded_`, `FinishedReadingTrailers()`, `sequencer()->IsClosed()`,
`stream_error()`, `rst_sent()`, `fin_sent()`, `details_`, the codec-helper
reset-callback latch, the stat counters and the bytes meter.  `log` is the
ghost observation log; `reset_count` counts actual reset-callback firings. -/
structure StreamState where
  read_side_closed : Bool
  write_side_closed : Bool
  reading_stopped : Bool
  local_end_stream : Bool
  end_stream_decoded : Bool
  trailers_consumed : Bool
  sequencer_closed : Bool
  trailers_valid : Bool
  close_connection_upon_invalid_header : Option Bool
  override_stream_error_on_invalid_http_message : Bool
  stream_error : Nat
  details : String
  reset_callbacks_run : Bool
  reset_count : Nat
  rx_reset_count : Nat
  tx_reset_count : Nat
  tx_flush_timeout_count : Nat
  rst_sent : Bool
  fin_sent : Bool
  wire_bytes_received : Nat
  header_bytes_received : Nat
  body_bytes_received : Nat
  log : List Obs
deriving DecidableEq, Repr

/-- A freshly created stream: nothing closed, nothing signaled, empty log. -/
def initStream : StreamState where
  read_side_closed := false
  write_side_closed := false
  reading_stopped := false
  local_end_stream := false
  end_stream_decoded := false
  trailers_consumed := false
  sequencer_closed := false
  trailers_valid := true
  close_connection_upon_invalid_header := none
  override_stream_error_on_invalid_http_message := false
  stream_error := QUIC_STREAM_NO_ERROR
  details := ""
  reset_callbacks_run := false
  reset_count := 0
  rx_reset_count := 0
  tx_reset_count := 0
  tx_flush_timeout_count := 0
  rst_sent := false
  fin_sent := false
  wire_bytes_received := 0
  header_bytes_received := 0
  body_bytes_received := 0
  log := []

/-- The observations a transition from `s` to `s'` appended to the log
(all transitions only ever append). -/
def logExt (s s' : StreamState) : List Obs :=
  s'.log.drop s.log.length

/-- Modelled from the spec: `quicRstErrorToEnvoyLocalResetReason`
(`envoy_quic_utils`, not in src/) maps a transport reset code to an
application reset reason attributed Local. -/
def quicRstErrorToEnvoyLocalResetReason (code : Nat) : ResetReason :=
  ⟨Attribution.Local, code⟩

/-- Modelled from the spec: `quicRstErrorToEnvoyRemoteResetReason`
(`envoy_quic_utils`, not in src/) maps a transport reset code to an
application reset reason attributed Remote. -/
def quicRstErrorToEnvoyRemoteResetReason (code : Nat) : ResetReason :=
  ⟨Attribution.Remote, code⟩

/-- Modelled from the spec: `quicErrorCodeToEnvoyLocalResetReason`
(`envoy_quic_utils`, not in src/) maps a connection error code to an
application reset reason attributed Local. -/
def quicErrorCodeToEnvoyLocalResetReason (err : Nat) : ResetReason :=
  ⟨Attribution.Local, err⟩

/-- Modelled from the spec: `quicErrorCodeToEnvoyRemoteResetReason`
(`envoy_quic_utils`, not in src/) maps a connection error code to an
application reset reason attributed Remote. -/
def quicErrorCodeToEnvoyRemoteResetReason (err : Nat) : ResetReason :=
  ⟨Attribution.Remote, err⟩

/-- Modelled from the spec: `envoyResetReasonToQuicRstError`
(`envoy_quic_utils`, not in src/) maps an application reset reason to a
transport reset code; modelled as the identity on the numeric tag. -/
def envoyResetReasonToQuicRstError (reason : Nat) : Nat := reason

/-- Modelled from the spec: the reason `Http::StreamResetReason::LocalReset`
used directly by `resetStream` after an early response. -/
def localResetReason : ResetReason := ⟨Attribution.Local, QUIC_STREAM_NO_ERROR⟩

/-- Modelled from the spec: `runResetCallbacks` (the HTTP codec helper, not
in src/) fires the application reset callback; per the spec,
`reset_callback_fired` latches so the callback fires at most once per
stream instance — a second call is a no-op. -/
def runResetCallbacks (s : StreamState) (r : ResetReason) : StreamState :=
  if s.reset_callbacks_run then s
  else { s with reset_callbacks_run := true
                reset_count := s.reset_count + 1
                log := s.log ++ [Obs.resetCallback r] }

/-- Modelled from the spec: `QuicStream::StopReading` (QUICHE, not in src/)
marks the stream as no longer delivering inbound data; it does not close
the read side. -/
def stopReading (s : StreamState) : StreamState :=
  { s with reading_stopped := true }

/-- Modelled from the spec: the base-class `ResetWithError` issues the reset
to the transport and immediately marks both directions closed ("issuing a
reset immediately marks the relevant side closed"). -/
def baseResetWithError (s : StreamState) (code : Nat) : StreamState :=
  { s with read_side_closed := true
           write_side_closed := true
           rst_sent := true
           log := s.log ++ [Obs.transportReset code] }

/-- Modelled from the spec: base-class `OnStopSending` closes the write side
in response to STOP_SENDING (the source comments "This call will close
write" and asserts `write_side_closed()` afterwards); it declines (returns
false) when the write side is already closed. -/
def baseOnStopSending (s : StreamState) (code : Nat) : Bool × StreamState :=
  if s.write_side_closed then (false, s)
  else (true, { s with write_side_closed := true
                       rst_sent := true
                       log := s.log ++ [Obs.transportReset code] })

/-- Modelled from the spec: base-class `OnStreamReset` closes the read side
(the source comments "This closes read side in IETF Quic, but doesn't
close write side" and asserts `read_side_closed()` afterwards). -/
def baseOnStreamReset (s : StreamState) : StreamState :=
  { s with read_side_closed := true }

/-- Modelled from the spec: base-class `OnConnectionClosed` tears the stream
down, closing both directions. -/
def baseOnConnectionClosed (s : StreamState) : StreamState :=
  { s with read_side_closed := true, write_side_closed := true }

/-- Modelled from the spec: `Http::MultiplexedStreamImplBase::onLocalEndStream`
(not in src/) runs local end-of-stream completion processing (arming the
pending-flush timer while final data is in flight); recorded as an
observation. -/
def onLocalEndStream (s : StreamState) : StreamState :=
  { s with log := s.log ++ [Obs.localEndStreamObs] }

/-- Modelled from the spec:
`Http::MultiplexedStreamImplBase::onPendingFlushTimer` (not in src/) only
clears the timer; no stream-state effect is modelled. -/
def basePendingFlushTimer (s : StreamState) : StreamState := s

/-- Modelled from the spec: `updateReceivedContentBytes` (the shared stream
base, not in src/) accounts received body bytes; content-length mismatch
error flagging is abstracted by the pre-existing `stream_error` field. -/
def updateReceivedContentBytes (s : StreamState) (n : Nat) : StreamState :=
  { s with body_bytes_received := s.body_bytes_received + n }

/-- `EnvoyQuicServerStream::ResetWithError` (source lines 321–329): counts
the sent reset, runs the reset callback with Local attribution when local
end-of-stream has not yet been signaled, then issues the underlying reset
to the transport. -/
def ResetWithError (s : StreamState) (code : Nat) : StreamState :=
  let s1 := { s with tx_reset_count := s.tx_reset_count + 1 }
  let s2 := if s1.local_end_stream = false
            then runResetCallbacks s1 (quicRstErrorToEnvoyLocalResetReason code)
            else s1
  baseResetWithError s2 code

/-- `QuicStream::Reset(code)` wraps `ResetWithError` (QUICHE, not in src/;
the source calls `Reset(...)` in `encodeData`, `onStreamError`,
`resetStream` and `onPendingFlushTimer`). -/
def Reset (s : StreamState) (code : Nat) : StreamState :=
  ResetWithError s code

/-- `EnvoyQuicServerStream::OnStopSending` (source lines 285–305): counts
the received reset, lets the base class close the write side (bailing out
if it declines), stops reading, and — when local end-of-stream had not been
encoded at entry — runs the reset callback attributed Remote. -/
def OnStopSending (s : StreamState) (code : Nat) : Bool × StreamState :=
  let s0 := { s with rx_reset_count := s.rx_reset_count + 1 }
  let end_stream_encoded := s0.local_end_stream
  let r := baseOnStopSending s0 code
  if r.1 = false then (false, r.2)
  else
    let s1 := r.2
    let s2 := if s1.reading_stopped = false then stopReading s1 else s1
    let s3 := if end_stream_encoded = false
              then runResetCallbacks s2 (quicRstErrorToEnvoyRemoteResetReason code)
              else s2
    (true, s3)

/-- `EnvoyQuicServerStream::OnStreamReset` (source lines 307–319): counts
the received reset, records whether end-of-stream was already decoded and
encoded, lets the base class close the read side, and — when the write side
is also closed and the stream had not cleanly finished — runs the reset
callback attributed Remote. -/
def OnStreamReset (s : StreamState) (code : Nat) : StreamState :=
  let s0 := { s with rx_reset_count := s.rx_reset_count + 1 }
  let end_stream_decoded_and_encoded := s0.read_side_closed && s0.local_end_stream
  let s1 := baseOnStreamReset s0
  if s1.write_side_closed = true ∧ end_stream_decoded_and_encoded = false
  then runResetCallbacks s1 (quicRstErrorToEnvoyRemoteResetReason code)
  else s1

/-- `EnvoyQuicServerStream::OnConnectionClosed` (source lines 331–341): runs
the reset callback — attributed by which side initiated the closure —
before closing the stream, unless local end-of-stream was already
signaled. -/
def OnConnectionClosed (s : StreamState) (err : Nat) (fromSelf : Bool) : StreamState :=
  let s1 := if s.local_end_stream = false
            then runResetCallbacks s
                   (if fromSelf then quicErrorCodeToEnvoyLocalResetReason err
                    else quicErrorCodeToEnvoyRemoteResetReason err)
            else s
  baseOnConnectionClosed s1

/-- `EnvoyQuicServerStream::resetStream` (source lines 116–130): after an
early response (local end-of-stream signaled, still reading) it stops
reading and runs the reset callback with `LocalReset`; otherwise it resets
the transport stream with the mapped error code. -/
def resetStream (s : StreamState) (reason : Nat) : StreamState :=
  if s.local_end_stream = true ∧ s.reading_stopped = false then
    let s1 := stopReading s
    runResetCallbacks s1 localResetReason
  else
    Reset s (envoyResetReasonToQuicRstError reason)

/-- `EnvoyQuicServerStream::onPendingFlushTimer` (source lines 426–434):
notifies the base, counts the flush timeout, and resets the stream locally
with the cancellation code. -/
def onPendingFlushTimer (s : StreamState) : StreamState :=
  let s1 := basePendingFlushTimer s
  let s2 := { s1 with tx_flush_timeout_count := s1.tx_flush_timeout_count + 1 }
  Reset s2 QUIC_STREAM_CANCELLED

/-- `EnvoyQuicServerStream::onStreamError` (source lines 406–424): sets the
diagnostic detail only if still empty (first-writer-wins), decides between
connection-level close and stream-only reset from the optional override or,
absent that, from the `override_stream_error_on_invalid_http_message`
configuration flag, and acts accordingly. -/
def onStreamError (s : StreamState) (should_close_connection : Option Bool)
    (rst : Nat) : StreamState :=
  let s0 := if s.details = "" then { s with details := invalid_http_header } else s
  let close_connection_upon_invalid_header :=
    match should_close_connection with
    | some b => b
    | none => !s0.override_stream_error_on_invalid_http_message
  if close_connection_upon_invalid_header then
    { s0 with log := s0.log ++ [Obs.connError QUIC_HTTP_FRAME_ERROR s0.details] }
  else
    Reset s0 rst

/-- `EnvoyQuicServerStream::maybeDecodeTrailers` (source lines 263–283):
only acts when the sequencer is closed and trailers have not yet been
consumed; then marks end-of-stream decoded, accounts the fin, stops on a
stream error, routes trailer-conversion failure to the error path, and
otherwise dispatches `decodeTrailers` and marks trailers consumed. -/
def maybeDecodeTrailers (s : StreamState) : StreamState :=
  if s.sequencer_closed = true ∧ s.trailers_consumed = false then
    let s1 := { s with end_stream_decoded := true }
    let s2 := updateReceivedContentBytes s1 0
    if s2.stream_error ≠ QUIC_STREAM_NO_ERROR then s2
    else if s2.trailers_valid = false then
      onStreamError s2 s2.close_connection_upon_invalid_header
        QUIC_STREAM_NO_ERROR
    else
      let s3 := { s2 with log := s2.log ++ [Obs.decodeTrailersObs] }
      { s3 with trailers_consumed := true }
  else s

/-- `EnvoyQuicServerStream::encodeData` (source lines 61–95): a zero-length
write without end-stream returns immediately; otherwise local end-of-stream
is set from the fin bit and the body slices are written to the transport.
`remaining` is the byte count left in the buffer after `WriteBodySlices`
(external transport behaviour): if positive, the stream is reset with the
bad-payload code and the function returns; otherwise, if end-of-stream was
signaled, local end-of-stream completion processing runs. -/
def encodeData (s : StreamState) (len : Nat) (end_stream : Bool)
    (remaining : Nat) : StreamState :=
  if len = 0 ∧ end_stream = false then s
  else
    let s1 := { s with local_end_stream := end_stream }
    let s2 := { s1 with log := s1.log ++ [Obs.writeBody len end_stream] }
    if remaining > 0 then Reset s2 QUIC_BAD_APPLICATION_PAYLOAD
    else if s2.local_end_stream then onLocalEndStream s2 else s2

/-- `EnvoyQuicServerStream::OnStreamFrame` (source lines 185–192): raises
`wire_bytes_received` to the frame's end offset when that exceeds the
current value, then hands the frame to the base class (which feeds the
sequencer and does not touch the byte meter). -/
def OnStreamFrame (s : StreamState) (offset dataLen : Nat) : StreamState :=
  let highest_byte_received := dataLen + offset
  if highest_byte_received > s.wire_bytes_received then
    { s with wire_bytes_received :=
               s.wire_bytes_received + (highest_byte_received - s.wire_bytes_received) }
  else s

/-- Run a sequence of stream frames, each given as (offset, data length). -/
def runFrames (frames : List (Nat × Nat)) (s : StreamState) : StreamState :=
  frames.foldl (fun t f => OnStreamFrame t f.1 f.2) s

/-- One close/reset trigger from the claim: local reset (either through the
application `resetStream` entry or directly through `ResetWithError`),
remote reset, stop-sending, or connection close. -/
inductive CloseEvent where
  | localResetWithError (code : Nat)
  | localResetStream (reason : Nat)
  | remoteReset (code : Nat)
  | stopSending (code : Nat)
  | connClose (err : Nat) (fromSelf : Bool)
deriving DecidableEq, Repr

/-- Dispatch one close/reset trigger to its handler. -/
def closeStep (s : StreamState) : CloseEvent → StreamState
  | CloseEvent.localResetWithError code => ResetWithError s code
  | CloseEvent.localResetStream reason => resetStream s reason
  | CloseEvent.remoteReset code => OnStreamReset s code
  | CloseEvent.stopSending code => (OnStopSending s code).2
  | CloseEvent.connClose err fromSelf => OnConnectionClosed s err fromSelf

/-- Run a sequence of close/reset triggers. -/
def runCloseEvents (events : List CloseEvent) (s : StreamState) : StreamState :=
  events.foldl closeStep s

/-- Does the list of observations contain a reset callback with the given
attribution? -/
def hasResetCallback (l : List Obs) (a : Attribution) : Bool :=
  l.any fun o =>
    match o with
    | Obs.resetCallback r => r.attr = a
    | _ => false

/-- Does the list of observations contain a connection-level close? -/
def isConnError : Obs → Bool
  | Obs.connError _ _ => true
  | _ => false

/-- Did the transition from `s` to `s'` close the whole connection? -/
def closedConnection (s s' : StreamState) : Bool :=
  (logExt s s').any isConnError

/-- A stream whose local end-of-stream has already been signaled (e.g. the
response was fully encoded with `endStream = true`). -/
def lesStream : StreamState :=
  { initStream with local_end_stream := true }

/-- A stream whose write side is already closed while the read side is still
open (e.g. after the local response path finished writing). -/
def wsStream : StreamState :=
  { initStream with write_side_closed := true }

/-- A stream whose diagnostic detail string has already been set. -/
def detailStream : StreamState :=
  { initStream with details := "d" }

/-- The at-most-once invariant for the reset callback: the firing count
never exceeds one, and is zero while the latch is clear. -/
def ResetInv (s : StreamState) : Prop :=
  s.reset_count ≤ 1 ∧ (s.reset_callbacks_run = false → s.reset_count = 0)

lemma resetInv_congr {s t : StreamState} (h : ResetInv s)
    (hc : t.reset_count = s.reset_count)
    (hr : t.reset_callbacks_run = s.reset_callbacks_run) : ResetInv t := by
  unfold ResetInv at *
  rw [hc, hr]
  exact h

lemma resetInv_runResetCallbacks (s : StreamState) (r : ResetReason)
    (h : ResetInv s) : ResetInv (runResetCallbacks s r) := by
  unfold runResetCallbacks
  split
  · exact h
  · next hrun =>
    have h0 : s.reset_count = 0 := h.2 (by simpa using hrun)
    constructor
    · simp [h0]
    · intro hfalse
      simp at hfalse

lemma closeStep_resetFields (s : StreamState) (e : CloseEvent) :
    ((closeStep s e).reset_count = s.reset_count ∧
     (closeStep s e).reset_callbacks_run = s.reset_callbacks_run) ∨
    (s.reset_callbacks_run = false ∧
     (closeStep s e).reset_count = s.reset_count + 1 ∧
     (closeStep s e).reset_callbacks_run = true) := by
  cases e <;>
    simp only [closeStep, ResetWithError, Reset, resetStream, OnStreamReset,
      OnStopSending, OnConnectionClosed, baseResetWithError, baseOnStopSending,
      baseOnStreamReset, baseOnConnectionClosed, stopReading,
      runResetCallbacks] <;>
    split_ifs <;> simp_all

lemma resetInv_closeStep (s : StreamState) (e : CloseEvent)
    (h : ResetInv s) : ResetInv (closeStep s e) := by
  rcases closeStep_resetFields s e with ⟨hc, hr⟩ | ⟨hl, hc, hr⟩
  · constructor
    · rw [hc]; exact h.1
    · intro hf; rw [hr] at hf; rw [hc]; exact h.2 hf
  · have h0 : s.reset_count = 0 := h.2 hl
    constructor
    · omega
    · intro hf; rw [hr] at hf; exact absurd hf (by simp)

lemma resetInv_runCloseEvents (events : List CloseEvent) :
    ∀ s, ResetInv s → ResetInv (runCloseEvents events s) := by
  induction events with
  | nil => intro s hs; exact hs
  | cons e es ih =>
    intro s hs
    exact ih (closeStep s e) (resetInv_closeStep s e hs)

/-- C1: For every stream instance and every sequence of close/reset triggers
(local reset, remote reset, stop-sending, connection close) in any order,
the reset callback (`runResetCallbacks`) is invoked at most once over the
stream's lifetime. -/
theorem runCloseEvents_reset_callback_at_most_once (events : List CloseEvent) :
    (runCloseEvents events initStream).reset_count ≤ 1 :=
  (resetInv_runCloseEvents events initStream ⟨Nat.zero_le 1, fun _ => rfl⟩).1

/-- C2: `decodeTrailers` is never dispatched to the application before the
body sequence is fully closed: `maybeDecodeTrailers` is a no-op whenever the
sequencer is not yet closed or trailers were already consumed, and any
trailer dispatch it performs happens only from a state where the sequencer
is closed and trailers were not yet consumed. -/
theorem maybeDecodeTrailers_only_after_sequencer_closed (s : StreamState) :
    (s.sequencer_closed = false ∨ s.trailers_consumed = true →
      maybeDecodeTrailers s = s) ∧
    (Obs.decodeTrailersObs ∈ logExt s (maybeDecodeTrailers s) →
      s.sequencer_closed = true ∧ s.trailers_consumed = false) := by
  constructor
  · intro h
    rcases h with h | h <;> simp [maybeDecodeTrailers, h]
  · intro hmem
    by_cases hg : s.sequencer_closed = true ∧ s.trailers_consumed = false
    · exact hg
    · exfalso
      have heq : maybeDecodeTrailers s = s := by
        unfold maybeDecodeTrailers
        rw [if_neg hg]
      rw [heq] at hmem
      simp [logExt] at hmem

/-- C2 witness: from a fresh stream (sequencer not closed), the call is a
no-op. -/
theorem maybeDecodeTrailers_only_after_sequencer_closed_witness :
    maybeDecodeTrailers initStream = initStream :=
  (maybeDecodeTrailers_only_after_sequencer_closed initStream).1 (Or.inl rfl)

lemma wire_step (s : StreamState) (offset dataLen : Nat) :
    (OnStreamFrame s offset dataLen).wire_bytes_received =
      max s.wire_bytes_received (dataLen + offset) := by
  unfold OnStreamFrame
  dsimp only
  split <;> (try dsimp only) <;> omega

lemma wire_fold (frames : List (Nat × Nat)) :
    ∀ s : StreamState,
      (runFrames frames s).wire_bytes_received =
        frames.foldl (fun m f => max m (f.2 + f.1)) s.wire_bytes_received := by
  induction frames with
  | nil => intro s; rfl
  | cons f fs ih =>
    intro s
    have h := ih (OnStreamFrame s f.1 f.2)
    simpa [runFrames, List.foldl_cons, wire_step] using h

/-- C10: `wire_bytes_received` is monotonically non-decreasing across stream
frames and, after any sequence of `OnStreamFrame` events on a fresh stream,
equals the maximum end offset (frame offset plus data length) observed so
far, so overlapping or retransmitted frames are never double-counted. -/
theorem onStreamFrame_wire_bytes_max_end_offset (frames : List (Nat × Nat)) :
    (runFrames frames initStream).wire_bytes_received =
      frames.foldl (fun m f => max m (f.2 + f.1)) 0 ∧
    ∀ (s : StreamState) (offset dataLen : Nat),
      s.wire_bytes_received ≤ (OnStreamFrame s offset dataLen).wire_bytes_received := by
  constructor
  · exact wire_fold frames initStream
  · intro s offset dataLen
    rw [wire_step]
    exact Nat.le_max_left _ _

/-- C3: For every locally issued reset (`ResetWithError`) performed while
`local_end_stream` has not yet been signaled, the reset callback is invoked
with a Local attribution synchronously before the underlying reset is
issued to the transport; if `local_end_stream` was already signaled, no
callback is invoked by this path. -/
theorem resetWithError_callback_before_transport_reset (s : StreamState)
    (code : Nat) (hl : s.reset_callbacks_run = false) :
    (s.local_end_stream = false →
      logExt s (ResetWithError s code) =
        [Obs.resetCallback (quicRstErrorToEnvoyLocalResetReason code),
         Obs.transportReset code]) ∧
    (s.local_end_stream = true →
      logExt s (ResetWithError s code) = [Obs.transportReset code]) := by
  constructor
  · intro h
    simp [ResetWithError, runResetCallbacks, baseResetWithError, logExt, h, hl,
      List.append_assoc, List.drop_left]
  · intro h
    simp [ResetWithError, runResetCallbacks, baseResetWithError, logExt, h,
      List.drop_left]

/-- C3 witness: on a fresh stream the Local callback precedes the transport
reset; with local end-of-stream already signaled only the transport reset
happens. -/
theorem resetWithError_callback_before_transport_reset_witness :
    logExt initStream (ResetWithError initStream 5) =
      [Obs.resetCallback (quicRstErrorToEnvoyLocalResetReason 5),
       Obs.transportReset 5] ∧
    logExt lesStream (ResetWithError lesStream 5) = [Obs.transportReset 5] :=
  ⟨(resetWithError_callback_before_transport_reset initStream 5 rfl).1 rfl,
   (resetWithError_callback_before_transport_reset lesStream 5 rfl).2 rfl⟩

/-- C4: For every stream receiving STOP_SENDING from the peer (with the
write side still open, so the frame is actually processed), processing it
closes only the local write side — the read-side flag is untouched, reading
merely stops — and a reset callback attributed Remote fires if and only if
local end-of-stream had not yet been signaled when the frame was received;
in particular, if the local response was already fully encoded with
`endStream = true`, no reset callback fires. -/
theorem onStopSending_closes_write_remote_callback_iff (s : StreamState)
    (code : Nat) (hw : s.write_side_closed = false)
    (hl : s.reset_callbacks_run = false) :
    (OnStopSending s code).1 = true ∧
    (OnStopSending s code).2.write_side_closed = true ∧
    (OnStopSending s code).2.reading_stopped = true ∧
    (OnStopSending s code).2.read_side_closed = s.read_side_closed ∧
    (hasResetCallback (logExt s (OnStopSending s code).2) Attribution.Remote = true
      ↔ s.local_end_stream = false) := by
  simp only [OnStopSending, baseOnStopSending, stopReading, runResetCallbacks,
    quicRstErrorToEnvoyRemoteResetReason, hasResetCallback, logExt]
  split_ifs <;> simp_all [List.drop_left, List.append_assoc]

/-- C4 witness: a fresh stream processing STOP_SENDING closes the write
side, stops reading, leaves the read-side flag unchanged, and fires the
Remote reset callback. -/
theorem onStopSending_closes_write_remote_callback_iff_witness :
    (OnStopSending initStream 7).1 = true ∧
    (OnStopSending initStream 7).2.write_side_closed = true ∧
    (OnStopSending initStream 7).2.reading_stopped = true ∧
    (OnStopSending initStream 7).2.read_side_closed = initStream.read_side_closed ∧
    (hasResetCallback (logExt initStream (OnStopSending initStream 7).2)
        Attribution.Remote = true
      ↔ initStream.local_end_stream = false) :=
  onStopSending_closes_write_remote_callback_iff initStream 7 rfl rfl

/-- C5: For every stream receiving RESET_STREAM from the peer, processing it
closes only the local read side and does not close the write side; and a
reset callback attributed Remote fires if and only if the write side is
also closed afterward and it was not the case that, before the frame, the
read side was already closed and local end-of-stream had been signaled. -/
theorem onStreamReset_closes_read_remote_callback_iff (s : StreamState)
    (code : Nat) (hl : s.reset_callbacks_run = false) :
    (OnStreamReset s code).read_side_closed = true ∧
    (OnStreamReset s code).write_side_closed = s.write_side_closed ∧
    (hasResetCallback (logExt s (OnStreamReset s code)) Attribution.Remote = true
      ↔ (s.write_side_closed = true ∧
         (s.read_side_closed && s.local_end_stream) = false)) := by
  simp only [OnStreamReset, baseOnStreamReset, runResetCallbacks,
    quicRstErrorToEnvoyRemoteResetReason, hasResetCallback, logExt]
  split_ifs <;> simp_all [List.drop_left]

/-- C5 witness: with the write side already closed, a peer RESET_STREAM on a
fresh stream closes the read side and fires the Remote reset callback. -/
theorem onStreamReset_closes_read_remote_callback_iff_witness :
    (OnStreamReset wsStream 4).read_side_closed = true ∧
    (OnStreamReset wsStream 4).write_side_closed = wsStream.write_side_closed ∧
    (hasResetCallback (logExt wsStream (OnStreamReset wsStream 4)) Attribution.Remote = true
      ↔ (wsStream.write_side_closed = true ∧
         (wsStream.read_side_closed && wsStream.local_end_stream) = false)) :=
  onStreamReset_closes_read_remote_callback_iff wsStream 4 rfl

/-- C6: For every stream on which the flush timeout fires (local
end-of-stream signaled, final frame not yet confirmed sent), the stream is
reset with the cancellation code `QUIC_STREAM_CANCELLED` and zero reset
callbacks are delivered by that forced termination. -/
theorem onPendingFlushTimer_cancel_no_callback (s : StreamState)
    (hs : s.local_end_stream = true) (_hf : s.fin_sent = false) :
    logExt s (onPendingFlushTimer s) = [Obs.transportReset QUIC_STREAM_CANCELLED] ∧
    (onPendingFlushTimer s).reset_count = s.reset_count ∧
    hasResetCallback (logExt s (onPendingFlushTimer s)) Attribution.Local = false ∧
    hasResetCallback (logExt s (onPendingFlushTimer s)) Attribution.Remote = false := by
  simp [onPendingFlushTimer, basePendingFlushTimer, Reset, ResetWithError,
    runResetCallbacks, baseResetWithError, logExt, hasResetCallback, hs,
    List.drop_left]

/-- C6 witness: on a stream with local end-of-stream signaled and the fin
not yet sent, the flush timeout resets with the cancellation code and
delivers no reset callback. -/
theorem onPendingFlushTimer_cancel_no_callback_witness :
    logExt lesStream (onPendingFlushTimer lesStream) =
      [Obs.transportReset QUIC_STREAM_CANCELLED] ∧
    (onPendingFlushTimer lesStream).reset_count = lesStream.reset_count ∧
    hasResetCallback (logExt lesStream (onPendingFlushTimer lesStream))
      Attribution.Local = false ∧
    hasResetCallback (logExt lesStream (onPendingFlushTimer lesStream))
      Attribution.Remote = false :=
  onPendingFlushTimer_cancel_no_callback lesStream rfl rfl

/-- C7: For every `encodeData` call in which the transport's send buffer
does not fully absorb the submitted bytes (data remains after
`WriteBodySlices`), the stream is immediately reset locally with the
distinct bad-payload code `QUIC_BAD_APPLICATION_PAYLOAD`, the write is
never retried (exactly one body write is issued), and no local
end-of-stream completion processing runs on that call. -/
theorem encodeData_payload_mismatch_resets (s : StreamState)
    (len remaining : Nat) (es : Bool) (_h : s.local_end_stream = false)
    (hl : s.reset_callbacks_run = false) (hr : 0 < remaining)
    (hrl : remaining ≤ len) :
    logExt s (encodeData s len es remaining) =
      [Obs.writeBody len es] ++
      (if es = true then []
       else [Obs.resetCallback
               (quicRstErrorToEnvoyLocalResetReason QUIC_BAD_APPLICATION_PAYLOAD)]) ++
      [Obs.transportReset QUIC_BAD_APPLICATION_PAYLOAD] ∧
    Obs.localEndStreamObs ∉ logExt s (encodeData s len es remaining) ∧
    (encodeData s len es remaining).rst_sent = true := by
  have hlen0 : ¬len = 0 := by omega
  cases es <;>
    simp_all [encodeData, Reset, ResetWithError, runResetCallbacks,
      baseResetWithError, onLocalEndStream, logExt, hr,
      List.drop_left, List.append_assoc]

/-- C7 witness: a 10-byte write of which 3 bytes remain unabsorbed resets
the stream with the bad-payload code, issues no second write and runs no
local end-of-stream processing. -/
theorem encodeData_payload_mismatch_resets_witness :
    logExt initStream (encodeData initStream 10 false 3) =
      [Obs.writeBody 10 false,
       Obs.resetCallback
         (quicRstErrorToEnvoyLocalResetReason QUIC_BAD_APPLICATION_PAYLOAD),
       Obs.transportReset QUIC_BAD_APPLICATION_PAYLOAD] ∧
    Obs.localEndStreamObs ∉ logExt initStream (encodeData initStream 10 false 3) ∧
    (encodeData initStream 10 false 3).rst_sent = true := by
  have h := encodeData_payload_mismatch_resets initStream 10 3 false rfl rfl
    (by decide) (by decide)
  exact ⟨by simpa using h.1, h.2.1, h.2.2⟩

/-- C8: After headers, `encodeData` with a zero-length buffer and
`endStream = false` is a no-op (no transport write, no counter change, no
state change), while `encodeData` with a zero-length buffer and
`endStream = true` signals fin exactly once: it sets local end-of-stream
and performs the single end-of-stream write followed by local
end-of-stream completion processing. -/
theorem encodeData_zero_length_boundary (s : StreamState) (remaining : Nat)
    (_h : s.local_end_stream = false) :
    encodeData s 0 false remaining = s ∧
    logExt s (encodeData s 0 true 0) =
      [Obs.writeBody 0 true, Obs.localEndStreamObs] ∧
    (encodeData s 0 true 0).local_end_stream = true := by
  refine ⟨by simp [encodeData], ?_, ?_⟩ <;>
    simp [encodeData, onLocalEndStream, logExt, List.drop_left,
      List.append_assoc]

/-- C8 witness: on a fresh stream, a zero-length non-fin write changes
nothing, and a zero-length fin write performs exactly the end-of-stream
write. -/
theorem encodeData_zero_length_boundary_witness :
    encodeData initStream 0 false 5 = initStream ∧
    logExt initStream (encodeData initStream 0 true 0) =
      [Obs.writeBody 0 true, Obs.localEndStreamObs] ∧
    (encodeData initStream 0 true 0).local_end_stream = true :=
  encodeData_zero_length_boundary initStream 5 rfl

/-- C9: For every invocation of the stream-error entry point: a present
must-close-connection override decides between connection-level close and
stream-only reset; when absent, the
`override_stream_error_on_invalid_http_message` configuration flag drives
the decision (flag set means stream-only reset, flag unset means
connection close); and the diagnostic detail string is first-writer-wins —
a later call never overwrites a non-empty detail. -/
theorem onStreamError_decision_and_detail (s : StreamState) (rst : Nat) :
    (∀ b : Bool,
      closedConnection s (onStreamError s (some b) rst) = b ∧
      (b = false →
        Obs.transportReset rst ∈ logExt s (onStreamError s (some b) rst))) ∧
    (closedConnection s (onStreamError s none rst) =
       !s.override_stream_error_on_invalid_http_message ∧
     (s.override_stream_error_on_invalid_http_message = true →
       Obs.transportReset rst ∈ logExt s (onStreamError s none rst))) ∧
    (∀ o : Option Bool, s.details ≠ "" →
      (onStreamError s o rst).details = s.details) := by
  refine ⟨fun b => ?_, ?_, fun o ho => ?_⟩
  · cases b <;>
      simp [onStreamError, Reset, ResetWithError, runResetCallbacks,
        baseResetWithError, closedConnection, isConnError, logExt,
        List.drop_left, List.append_assoc] <;>
      split_ifs <;> simp_all [isConnError]
  · simp only [onStreamError, Reset, ResetWithError, runResetCallbacks,
      baseResetWithError, closedConnection, isConnError, logExt]
    split_ifs <;>
      simp_all [isConnError, List.drop_left, List.append_assoc]
  · cases o <;>
      simp [onStreamError, Reset, ResetWithError, runResetCallbacks,
        baseResetWithError, ho] <;>
      split_ifs <;> simp_all

/-- C9 witness: an explicit close-connection override closes the
connection, an explicit no-close override resets the stream, and a
non-empty detail is not overwritten. -/
theorem onStreamError_decision_and_detail_witness :
    closedConnection initStream (onStreamError initStream (some true) 9) = true ∧
    Obs.transportReset 9 ∈ logExt initStream (onStreamError initStream (some false) 9) ∧
    (onStreamError detailStream (some true) 9).details = "d" :=
  ⟨((onStreamError_decision_and_detail initStream 9).1 true).1,
   ((onStreamError_decision_and_detail initStream 9).1 false).2 rfl,
   (onStreamError_decision_and_detail detailStream 9).2.2 (some true)
     (by decide)⟩

end EnvoyQuicServerStream
